import Mathlib

/-!
Verification development for the thumbnail_generator repository.

Shallow embedding of the three tools:
* `TG`  — thumbnail_gen.py (batch thumbnail compositor)
* `UV`  — update_youtube_videos.py (thumbnail matcher / uploader)
* `GV`  — get_youtube_video_ids.py (playlist exporter)

External effects (subprocess calls, the filesystem, the YouTube API,
logging) are modelled by explicit parameters and return values: a
directory listing is a list of file names, an API call is an oracle
function, an emitted log line is an element of a returned list.
-/

namespace TG

/-- thumbnail_gen.py line 29: `part_str = f"{part:01d}" if part is not None else ""`.
The format `:01d` pads to width 1, i.e. it is the plain decimal rendering. -/
def part_str (part : Option Int) : String :=
  match part with
  | some n => toString n
  | none => ""

/-- thumbnail_gen.py lines 27-108, `generate_thumbnail`: the function invokes
ImageMagick and returns the output path (`output.as_posix()`).  The embedding
keeps the path computation (lines 31-34): `outdir / "thumbnail.png"` when
`no_part_label` is set, else `outdir / f"thumbnail_part_{part_str}.png"`. -/
def generate_thumbnail (outdir : String) (part : Option Int) (no_part_label : Bool) : String :=
  if no_part_label then outdir ++ "/thumbnail.png"
  else outdir ++ "/thumbnail_part_" ++ part_str part ++ ".png"

/-- Python `range(start, stop)`: the integers `start, start+1, ..., stop-1`. -/
def pythonRange (start stop : Int) : List Int :=
  (List.range (stop - start).toNat).map (fun (i : Nat) => start + (i : Int))

/-- thumbnail_gen.py lines 111-116, `parse_range`: `--range a-b` parses to
`range(a, b+1)`, i.e. the inclusive list `[a, ..., b]`. -/
def parse_range (a b : Int) : List Int :=
  pythonRange a (b + 1)

/-- thumbnail_gen.py lines 144-147:
```
if args.no_part_label: parts = [None]
else: parts = list([args.part] if args.part else args.range)
```
Python truthiness: the int `0` is falsy, so `--part 0` falls through to
`args.range`; when `--range` was not given that is `list(None)`, which raises
`TypeError`.  The crash is modelled as `none`. -/
def computeParts (part : Option Int) (rng : Option (List Int)) (no_part_label : Bool) :
    Option (List (Option Int)) :=
  if no_part_label then some [none]
  else
    match part with
    | some p => if p ≠ 0 then some [some p] else (rng.map (fun l => l.map some))
    | none => rng.map (fun l => l.map some)

/-- thumbnail_gen.py line 194 sort key:
`outputs.sort(key=lambda p: (p[0] is None, p[0] or 0))` — a lexicographic
(bool, int) key, where `p[0] or 0` is `0` for `None` and for `0`, and `p[0]`
otherwise (so numerically it is `getD 0`). -/
def sortKey (p : Option Int × String) : Bool × Int :=
  (p.1.isNone, p.1.getD 0)

/-- Boolean `≤` for the lexicographic (bool, int) sort key (False < True). -/
def keyLe (x y : Option Int × String) : Bool :=
  (!(sortKey x).1 && (sortKey y).1) ||
    ((sortKey x).1 == (sortKey y).1 && decide ((sortKey x).2 ≤ (sortKey y).2))

/-- The `(part, path)` pairs collected by `main`: the sequential loop
(lines 153-166) appends them in input order, the worker pool (lines 167-192)
in task-completion order; `completed` is the `parts` list in whichever order
the results were collected. -/
def collectOutputs (outdir : String) (no_part_label : Bool) (completed : List (Option Int)) :
    List (Option Int × String) :=
  completed.map (fun p => (p, generate_thumbnail outdir p no_part_label))

/-- thumbnail_gen.py lines 193-195: sort the collected `(part, path)` pairs by
the key above (Python's stable sort, modelled by `mergeSort`) and keep the
paths. -/
def finalPaths (outdir : String) (no_part_label : Bool) (completed : List (Option Int)) :
    List String :=
  ((collectOutputs outdir no_part_label completed).mergeSort keyLe).map Prod.snd

/-- Single-part / sequential run of `main`, end to end: compute the parts list
(possibly crashing, `none`), generate each thumbnail in input order, sort,
report paths. -/
def compositorRunSeq (outdir : String) (part : Option Int) (rng : Option (List Int))
    (no_part_label : Bool) : Option (List String) :=
  (computeParts part rng no_part_label).map (fun parts => finalPaths outdir no_part_label parts)

/-- The parts list produced for `--range a-b` (all labelled). -/
def partsOfRange (a b : Int) : List (Option Int) :=
  (parse_range a b).map some

end TG

namespace TG

/-- Transitivity of the boolean sort-key comparison. -/
theorem keyLe_trans (x y z : Option Int × String) :
    keyLe x y → keyLe y z → keyLe x z := by
  rcases hx : sortKey x with ⟨bx, ix⟩
  rcases hy : sortKey y with ⟨b2, iy⟩
  rcases hz : sortKey z with ⟨b3, iz⟩
  cases bx <;> cases b2 <;> cases b3 <;> simp [keyLe, hx, hy, hz] <;> omega

/-- Totality of the boolean sort-key comparison. -/
theorem keyLe_total (x y : Option Int × String) : keyLe x y || keyLe y x := by
  rcases hx : sortKey x with ⟨bx, ix⟩
  rcases hy : sortKey y with ⟨b2, iy⟩
  cases bx <;> cases b2 <;> simp [keyLe, hx, hy] <;> omega

/-- A sorted list is determined by its multiset of elements once some
permutation of it is strictly sorted: if `l₁` is strictly sorted (`le` holds
forward and fails backward on every pair) and `l₂` is a sorted permutation of
`l₁`, then `l₂ = l₁`. -/
theorem sorted_perm_unique {α : Type} (le : α → α → Bool) :
    ∀ l₁ l₂ : List α, List.Perm l₁ l₂ →
      l₁.Pairwise (fun x y => le x y = true ∧ le y x = false) →
      l₂.Pairwise (fun x y => le x y = true) →
      l₂ = l₁ := by
  intro l₁
  induction l₁ with
  | nil =>
    intro l₂ h _ _
    exact h.symm.eq_nil
  | cons a t ih =>
    intro l₂ h hs₁ hs₂
    cases l₂ with
    | nil => exact absurd h.eq_nil (by simp)
    | cons b t₂ =>
      have hb : b ∈ a :: t := h.mem_iff.mpr (List.mem_cons_self b t₂)
      rcases List.mem_cons.mp hb with rfl | hbt
      · have ht : t₂ = t := ih t₂ h.cons_inv hs₁.of_cons hs₂.of_cons
        rw [ht]
      · have hab : le a b = true ∧ le b a = false := List.rel_of_pairwise_cons hs₁ hbt
        have ha : a ∈ b :: t₂ := h.mem_iff.mp (List.mem_cons_self a t)
        rcases List.mem_cons.mp ha with rfl | hat
        · simp [hab.left] at hab
        · have : le b a = true := List.rel_of_pairwise_cons hs₂ hat
          simp [this] at hab

/-- A Python `range` list is strictly increasing. -/
theorem pythonRange_pairwise (s t : Int) : (pythonRange s t).Pairwise (· < ·) := by
  unfold pythonRange
  rw [List.pairwise_map]
  apply (List.pairwise_lt_range _).imp
  intro i j h
  omega

/-- The `(part, path)` pairs of a labelled range run have strictly increasing
sort keys. -/
theorem collectOutputs_range_strict (outdir : String) (a b : Int) :
    (collectOutputs outdir false (partsOfRange a b)).Pairwise
      (fun x y => keyLe x y = true ∧ keyLe y x = false) := by
  unfold collectOutputs partsOfRange parse_range
  simp only [List.map_map, List.pairwise_map]
  apply (pythonRange_pairwise a (b + 1)).imp
  intro i j hij
  constructor <;> simp [keyLe, sortKey, Function.comp] <;> omega

/-- Sorting the collected outputs of any completion order that is a
permutation of the range yields exactly the canonical ascending list. -/
theorem mergeSort_collectOutputs_eq (outdir : String) (a b : Int)
    (order : List (Option Int)) (hperm : List.Perm order (partsOfRange a b)) :
    (collectOutputs outdir false order).mergeSort keyLe =
      collectOutputs outdir false (partsOfRange a b) := by
  apply sorted_perm_unique keyLe
  · exact ((List.mergeSort_perm (collectOutputs outdir false order) keyLe).trans
      (hperm.map _)).symm
  · exact collectOutputs_range_strict outdir a b
  · exact List.sorted_mergeSort keyLe_trans keyLe_total _

end TG

namespace TG

/-- C1: the spec claims a single-part Compositor run with any non-negative
part number N, 0 included, produces exactly one composited image at
`outdir/thumbnail_part_N.png`.  The code satisfies this for every N ≠ 0, but
for N = 0 the truthiness test `args.part if args.part else args.range`
(thumbnail_gen.py line 147) treats the int 0 as falsy and evaluates
`list(None)`, a TypeError crash (`none` in the model), so no image at all is
produced for part 0. -/
theorem c1_single_part_output (outdir : String) (n : Int) :
    compositorRunSeq outdir (some n) none false =
      (if n = 0 then none
       else some [outdir ++ "/thumbnail_part_" ++ toString n ++ ".png"]) := by
  by_cases hn : n = 0
  · simp [hn, compositorRunSeq, computeParts]
  · simp [hn, compositorRunSeq, computeParts, finalPaths, collectOutputs,
      generate_thumbnail, part_str]

/-- C2: for every valid part range [a,b] with a ≤ b, `--range a-b` yields the
parts list [a..b]; the final reported paths are identical for the sequential
run (completion order = input order) and for any worker-pool completion order
(any permutation of the parts), the reported order is ascending by part
number, and exactly b-a+1 output files are produced, one per integer in the
range. -/
theorem c2_pool_matches_sequential (a b : Int) (outdir : String) (hab : a ≤ b)
    (order : List (Option Int)) (hperm : List.Perm order (partsOfRange a b)) :
    computeParts none (some (parse_range a b)) false = some (partsOfRange a b)
  ∧ finalPaths outdir false order = finalPaths outdir false (partsOfRange a b)
  ∧ finalPaths outdir false (partsOfRange a b) =
      (parse_range a b).map (fun n => outdir ++ "/thumbnail_part_" ++ toString n ++ ".png")
  ∧ (finalPaths outdir false order).length = (b - a).toNat + 1 := by
  have hsort := mergeSort_collectOutputs_eq outdir a b order hperm
  have hsort₂ := mergeSort_collectOutputs_eq outdir a b (partsOfRange a b) (List.Perm.refl _)
  refine ⟨rfl, ?_, ?_, ?_⟩
  · unfold finalPaths
    rw [hsort, hsort₂]
  · unfold finalPaths
    rw [hsort₂]
    unfold collectOutputs partsOfRange
    simp [List.map_map, Function.comp, generate_thumbnail, part_str]
  · unfold finalPaths
    rw [hsort]
    unfold collectOutputs partsOfRange parse_range pythonRange
    simp only [List.length_map, List.length_range]
    omega

/-- Witness for C2 at the spec's own example: range 1-3 with worker-pool
completion order [3, 1, 2]. -/
theorem c2_pool_matches_sequential_witness :
    computeParts none (some (parse_range 1 3)) false = some (partsOfRange 1 3)
  ∧ finalPaths "thumbnails" false [some 3, some 1, some 2] =
      finalPaths "thumbnails" false (partsOfRange 1 3)
  ∧ finalPaths "thumbnails" false (partsOfRange 1 3) =
      (parse_range 1 3).map (fun n => "thumbnails" ++ "/thumbnail_part_" ++ toString n ++ ".png")
  ∧ (finalPaths "thumbnails" false [some 3, some 1, some 2]).length = ((3 : Int) - 1).toNat + 1 :=
  c2_pool_matches_sequential 1 3 "thumbnails" (by decide) [some 3, some 1, some 2] (by decide)

end TG

namespace UV

/-- update_youtube_videos.py lines 24-28, the `Video` dataclass. -/
structure Video where
  video_id : String
  title : String
  thumbnail_path : Option String
deriving DecidableEq

/-- Python `int(...)` on a string of decimal digit characters. -/
def digitsVal (ds : List Char) : Nat :=
  ds.foldl (fun acc c => acc * 10 + (c.toNat - 48)) 0

/-- Python regex `$` matches at the end of the string or just before one
trailing newline; the embedding drops that trailing newline first. -/
def stripTrailingNewline (cs : List Char) : List Char :=
  if cs.getLast? = some (Char.ofNat 10) then cs.dropLast else cs

/-- update_youtube_videos.py line 52 (also lines 68 and 78):
`re.search(r"Part (\d+)$", title, re.IGNORECASE)`.  The regex matches iff the
title ends in a nonempty run of digits immediately preceded by the five
characters "Part " (letters matched case-insensitively, the space literal);
the captured group is that maximal trailing digit run, read as an int. -/
def titlePartNumber (title : String) : Option Nat :=
  let cs := (stripTrailingNewline title.data).reverse
  let ds := cs.takeWhile (fun c => c.isDigit)
  let rest := cs.dropWhile (fun c => c.isDigit)
  match ds, rest with
  | [], _ => none
  | _ :: _, ' ' :: t :: r :: a :: p :: _ =>
    if t.toLower = 't' ∧ r.toLower = 'r' ∧ a.toLower = 'a' ∧ p.toLower = 'p' then
      some (digitsVal ds.reverse)
    else none
  | _ :: _, _ => none

/-- update_youtube_videos.py line 44 and 47:
`re.match(r"thumbnail_part_(\d+)\.(jpg|jpeg|png)$", f.name, re.IGNORECASE)`:
anchored at the start, the whole name (matched case-insensitively throughout)
must be "thumbnail_part_" ++ digits ++ "." ++ ext with ext one of
jpg/jpeg/png; the part number is the digit run read as an int. -/
def thumbFilePart (name : String) : Option Nat :=
  let cs := stripTrailingNewline (name.data.map Char.toLower)
  if cs.take 15 = "thumbnail_part_".data then
    let rest := cs.drop 15
    let ds := rest.takeWhile (fun c => c.isDigit)
    let ext := rest.dropWhile (fun c => c.isDigit)
    if ds ≠ [] ∧ (ext = ".jpg".data ∨ ext = ".jpeg".data ∨ ext = ".png".data) then
      some (digitsVal ds)
    else none
  else none

/-- update_youtube_videos.py lines 45-50 build `thumbnail_map` by iterating
the directory listing and assigning `thumbnail_map[part] = f`; a later file
with the same part number overwrites an earlier one, so looking a part up in
the finished dict returns the last matching file of the listing. -/
def thumbnailLookup (listing : List String) (n : Nat) : Option String :=
  (listing.filter (fun f => thumbFilePart f == some n)).getLast?

/-- Path of a directory entry, `thumbnails_folder / f` as a posix string. -/
def pathJoin (folder name : String) : String :=
  folder ++ "/" ++ name

/-- Loop body of update_youtube_videos.py lines 53-62: set the record's
`thumbnail_path` from the trailing part number and the directory map, and
append one warning for a record left with a null path. -/
def matchStep (folder : String) (listing : List String)
    (acc : List Video × List String) (v : Video) : List Video × List String :=
  match titlePartNumber v.title with
  | some n =>
    match thumbnailLookup listing n with
    | some f => (acc.1 ++ [⟨v.video_id, v.title, some (pathJoin folder f)⟩], acc.2)
    | none =>
      (acc.1 ++ [⟨v.video_id, v.title, none⟩],
        acc.2 ++ ["No thumbnail found for " ++ v.title])
  | none =>
    (acc.1 ++ [⟨v.video_id, v.title, none⟩],
      acc.2 ++ ["Video title " ++ v.title ++ " does not contain a part number"])

/-- update_youtube_videos.py lines 40-64, `match_thumbnails_to_videos`: one
pass over the records; returns the records (in order) and the emitted
warnings (in order). -/
def match_thumbnails_to_videos (videos : List Video) (folder : String)
    (listing : List String) : List Video × List String :=
  videos.foldl (matchStep folder listing) ([], [])

/-- The record produced for one video by the matching pass. -/
def matchedVideo (folder : String) (listing : List String) (v : Video) : Video :=
  ⟨v.video_id, v.title,
    (titlePartNumber v.title).bind (fun n => (thumbnailLookup listing n).map (pathJoin folder))⟩

/-- The warning (if any) produced for one video by the matching pass. -/
def matchWarning (listing : List String) (v : Video) : Option String :=
  match titlePartNumber v.title with
  | some n =>
    match thumbnailLookup listing n with
    | some _ => none
    | none => some ("No thumbnail found for " ++ v.title)
  | none => some ("Video title " ++ v.title ++ " does not contain a part number")

/-- Unfolding of the matching fold: accumulator out front, one mapped record
per input record, one warning per unmatched record. -/
theorem matchStep_foldl (folder : String) (listing : List String) :
    ∀ (videos : List Video) (acc : List Video × List String),
      videos.foldl (matchStep folder listing) acc =
        (acc.1 ++ videos.map (matchedVideo folder listing),
         acc.2 ++ videos.filterMap (matchWarning listing)) := by
  intro videos
  induction videos with
  | nil =>
    intro acc
    simp
  | cons v vs ih =>
    intro acc
    rw [List.foldl_cons, ih]
    cases h : titlePartNumber v.title with
    | none =>
      simp [matchStep, matchedVideo, matchWarning, h]
    | some n =>
      cases h2 : thumbnailLookup listing n with
      | none => simp [matchStep, matchedVideo, matchWarning, h, h2]
      | some f => simp [matchStep, matchedVideo, matchWarning, h, h2]

/-- Closed form of the matching pass. -/
theorem match_spec (videos : List Video) (folder : String) (listing : List String) :
    match_thumbnails_to_videos videos folder listing =
      (videos.map (matchedVideo folder listing),
       videos.filterMap (matchWarning listing)) := by
  unfold match_thumbnails_to_videos
  rw [matchStep_foldl]
  simp

end UV

namespace UV

/-- C3: matching is a pure function of the record titles and the directory
listing.  Every record whose title carries a trailing "Part N" token
(case-insensitive) such that the directory holds a file matching
`thumbnail_part_N.<jpg|jpeg|png>` (matched case-insensitively) gets that
file's path; every record with no trailing part token, or whose part number
has no matching file, gets a null `thumbnail_path`; exactly one warning is
emitted per such null-path record. -/
theorem c3_matching_pure_function (videos : List Video) (folder : String)
    (listing : List String) :
    (match_thumbnails_to_videos videos folder listing).1 =
      videos.map (fun v =>
        ⟨v.video_id, v.title,
          (titlePartNumber v.title).bind
            (fun n => (thumbnailLookup listing n).map (pathJoin folder))⟩)
  ∧ (match_thumbnails_to_videos videos folder listing).2 =
      videos.filterMap (matchWarning listing)
  ∧ (match_thumbnails_to_videos videos folder listing).2.length =
      ((match_thumbnails_to_videos videos folder listing).1.filter
        (fun v => v.thumbnail_path.isNone)).length := by
  refine ⟨(congrArg Prod.fst (match_spec videos folder listing)).trans rfl,
    congrArg Prod.snd (match_spec videos folder listing), ?_⟩
  rw [match_spec]
  induction videos with
  | nil => rfl
  | cons v vs ih =>
    cases h : titlePartNumber v.title with
    | none =>
      simpa [matchedVideo, matchWarning, h] using ih
    | some n =>
      cases h2 : thumbnailLookup listing n with
      | none => simpa [matchedVideo, matchWarning, h, h2] using ih
      | some f => simpa [matchedVideo, matchWarning, h, h2] using ih

/-- C10: the matching pass mutates only `thumbnail_path`: it returns one
record per input record in the same order, and each output record's
`video_id` and `title` equal the input record's. -/
theorem c10_matching_frame (videos : List Video) (folder : String)
    (listing : List String) :
    (match_thumbnails_to_videos videos folder listing).1.length = videos.length
  ∧ (match_thumbnails_to_videos videos folder listing).1.map
      (fun v => (v.video_id, v.title)) =
      videos.map (fun v => (v.video_id, v.title)) := by
  rw [match_spec]
  constructor
  · simp
  · rw [List.map_map]
    rfl

end UV

namespace UV

/-- update_youtube_videos.py lines 67-74, `filter_videos_by_min_part`: keep
the records whose trailing part number exists and is ≥ `min_part`. -/
def filter_videos_by_min_part (videos : List Video) (min_part : Int) : List Video :=
  videos.filter (fun v =>
    match titlePartNumber v.title with
    | some n => decide (min_part ≤ (n : Int))
    | none => false)

/-- update_youtube_videos.py lines 77-86, `filter_videos_by_part_range`: keep
the records whose trailing part number exists and lies in the inclusive
range. -/
def filter_videos_by_part_range (videos : List Video) (pr : Int × Int) : List Video :=
  videos.filter (fun v =>
    match titlePartNumber v.title with
    | some n => decide (pr.1 ≤ (n : Int) ∧ (n : Int) ≤ pr.2)
    | none => false)

/-- update_youtube_videos.py lines 133-137:
```
if args.min_part: videos = filter_videos_by_min_part(...)
elif args.part_range: videos = filter_videos_by_part_range(...)
```
Python truthiness: the int 0 is falsy, so `--min-part 0` skips the min-part
branch; a parsed part range is a 2-tuple and always truthy. -/
def applyFilters (min_part : Option Int) (part_range : Option (Int × Int))
    (videos : List Video) : List Video :=
  match min_part with
  | some m =>
    if m ≠ 0 then filter_videos_by_min_part videos m
    else
      match part_range with
      | some pr => filter_videos_by_part_range videos pr
      | none => videos
  | none =>
    match part_range with
    | some pr => filter_videos_by_part_range videos pr
    | none => videos

/-- C4 counterexample: the claim demands that `--min-part 0` retains exactly
the records carrying a trailing part number ≥ 0, so a record without any part
token must be dropped.  On the code, `--min-part 0` is falsy and the filter is
skipped entirely: the partless record survives, while the claimed retain-set
(computed by `filter_videos_by_min_part` itself at 0) is empty. -/
theorem c4_min_part_zero_counterexample :
    applyFilters (some 0) none [⟨"v1", "hello", none⟩] = [⟨"v1", "hello", none⟩]
  ∧ titlePartNumber "hello" = none
  ∧ filter_videos_by_min_part [⟨"v1", "hello", none⟩] 0 = [] := by
  refine ⟨rfl, by decide, by decide⟩

/-- C4 amended: with `--min-part m` for m ≠ 0 the run retains exactly the
records whose trailing part number is ≥ m (partless records dropped); with
`--min-part 0` the filter is skipped and every record proceeds; with
`--part-range a-b` the run retains exactly the records whose part number lies
in [a,b]; with neither filter all records proceed. -/
theorem c4_filter_dispatch (videos : List Video) (m a b : Int) :
    applyFilters (some m) none videos =
      (if m = 0 then videos else filter_videos_by_min_part videos m)
  ∧ applyFilters none (some (a, b)) videos = filter_videos_by_part_range videos (a, b)
  ∧ applyFilters none none videos = videos
  ∧ (∀ v, v ∈ filter_videos_by_min_part videos m ↔
      v ∈ videos ∧ ∃ n, titlePartNumber v.title = some n ∧ m ≤ (n : Int))
  ∧ (∀ v, v ∈ filter_videos_by_part_range videos (a, b) ↔
      v ∈ videos ∧ ∃ n, titlePartNumber v.title = some n ∧ a ≤ (n : Int) ∧ (n : Int) ≤ b) := by
  refine ⟨?_, rfl, rfl, ?_, ?_⟩
  · by_cases hm : m = 0 <;> simp [applyFilters, hm]
  · intro v
    rw [filter_videos_by_min_part, List.mem_filter]
    cases h : titlePartNumber v.title <;> simp [h]
  · intro v
    rw [filter_videos_by_part_range, List.mem_filter]
    cases h : titlePartNumber v.title <;> simp [h]

end UV

namespace UV

/-- Result of one call to `update_video_thumbnail` (update_youtube_videos.py
lines 89-100): `outcome` is `Except.error ()` when the final attempt
re-raises the caught exception, `Except.ok (some true)` when an attempt
succeeds (`return True`), and `Except.ok none` when the loop body never runs
(`max_retries = 0`: Python falls off the loop and returns None); `attempts`
counts upload calls made, `delays` counts `time.sleep(retry_delay)` calls,
and `slept` is the total time slept. -/
structure RetryResult where
  outcome : Except Unit (Option Bool)
  attempts : Nat
  delays : Nat
  slept : Nat

/-- The `for attempt in range(1, max_retries + 1)` loop of
`update_video_thumbnail`: `attempt_numbers` is the remaining list of attempt
numbers; a failed attempt sleeps `retry_delay` and continues unless it was the
last attempt (`attempt < max_retries` false), in which case it re-raises. -/
def retryLoop (succeeds : Nat → Bool) (retry_delay : Nat) :
    List Nat → Nat → Nat → RetryResult
  | [], att, del => ⟨Except.ok none, att, del, del * retry_delay⟩
  | a :: rest, att, del =>
    if succeeds a then ⟨Except.ok (some true), att + 1, del, del * retry_delay⟩
    else
      match rest with
      | [] => ⟨Except.error (), att + 1, del, del * retry_delay⟩
      | _ :: _ => retryLoop succeeds retry_delay rest (att + 1) (del + 1)

/-- update_youtube_videos.py lines 89-100, `update_video_thumbnail`, with the
upload call abstracted as the oracle `succeeds` (whether the attempt with the
given 1-based number succeeds). -/
def update_video_thumbnail (succeeds : Nat → Bool) (max_retries retry_delay : Nat) :
    RetryResult :=
  retryLoop succeeds retry_delay (List.range' 1 max_retries) 0 0

/-- Per-record message appended to `log_msgs` in update_youtube_videos.py
lines 155-163: success, failure (exception escaped the retry wrapper), or
skipped for a record with no thumbnail assigned. -/
def uploadMessage (succeedsFor : Video → Nat → Bool) (v : Video) : String :=
  match v.thumbnail_path with
  | some _ =>
    match (update_video_thumbnail (succeedsFor v) 3 2).outcome with
    | Except.ok _ => "updated " ++ v.title
    | Except.error _ => "Failed " ++ v.title
  | none => "Skipped " ++ v.title ++ ": No thumbnail assigned"

/-- update_youtube_videos.py lines 153-165: iterate the records in order,
attempt the retry-wrapped upload for each record that has a thumbnail, and
collect one message per record in `log_msgs`, all logged after the loop. -/
def uploadAll (succeedsFor : Video → Nat → Bool) (videos : List Video) : List String :=
  videos.foldl (fun msgs v => msgs ++ [uploadMessage succeedsFor v]) []

/-- A fold that appends one element per input is a map. -/
theorem foldl_push_eq_map {α β : Type} (f : α → β) (l : List α) :
    ∀ acc : List β, l.foldl (fun msgs v => msgs ++ [f v]) acc = acc ++ l.map f := by
  induction l with
  | nil => intro acc; simp
  | cons x xs ih => intro acc; simp [ih]

/-- C5: the upload of every record with a thumbnail is wrapped in a retry
loop of at most 3 attempts whose total sleep is 2 time-units per delay;
failing twice then succeeding on the third attempt makes exactly 3 attempts
and 2 delays and succeeds; failing all 3 attempts re-raises; and the main
loop isolates each record: one outcome message per record (success / failure
/ skipped-no-thumbnail), reported in original processing order. -/
theorem c5_retry_and_reporting (succeedsFor : Video → Nat → Bool) (videos : List Video) :
    (∀ s : Nat → Bool, (update_video_thumbnail s 3 2).attempts ≤ 3
      ∧ (update_video_thumbnail s 3 2).slept = 2 * (update_video_thumbnail s 3 2).delays)
  ∧ update_video_thumbnail (fun a => decide (a = 3)) 3 2 =
      ⟨Except.ok (some true), 3, 2, 4⟩
  ∧ update_video_thumbnail (fun _ => false) 3 2 = ⟨Except.error (), 3, 2, 4⟩
  ∧ uploadAll succeedsFor videos = videos.map (uploadMessage succeedsFor) := by
  refine ⟨?_, rfl, rfl, ?_⟩
  · intro s
    cases h1 : s 1 <;> cases h2 : s 2 <;> cases h3 : s 3 <;>
      simp [update_video_thumbnail, retryLoop, List.range', h1, h2, h3]
  · rw [uploadAll, foldl_push_eq_map, List.nil_append]

end UV

namespace UV

/-- CLI values of update_youtube_videos.py `main` (lines 113-121); `none`
models an omitted flag. -/
structure MatcherArgs where
  client_secrets : Option String
  videos_json : Option String
  thumbnails_folder : Option String
  min_part : Option Int
  part_range : Option (Int × Int)
  updateFlag : Bool

/-- argparse configuration of update_youtube_videos.py lines 115-120:
`--client-secrets`, `--videos-json` and `--thumbnails-folder` are all
declared `required=True` unconditionally; `--min-part` and `--part-range`
are plain optional arguments, NOT placed in a mutually exclusive group, so
argparse accepts both together without complaint. -/
def parseMatcherArgs (a : MatcherArgs) : Except String MatcherArgs :=
  if a.client_secrets.isNone then
    Except.error "the following arguments are required: --client-secrets"
  else if a.videos_json.isNone then
    Except.error "the following arguments are required: --videos-json"
  else if a.thumbnails_folder.isNone then
    Except.error "the following arguments are required: --thumbnails-folder"
  else Except.ok a

/-- update_youtube_videos.py `main` (lines 113-148) up to and including the
records written to the `_with_thumbnails.json` file: parse the CLI, validate
that the videos JSON file and the thumbnails folder exist, load the records,
apply the filters (lines 133-137), match thumbnails, and return the matched
records that get written.  An `Except.error` is an abort (argparse exit or
raised ValueError) before any matching or writing happens.  The upload phase
(lines 150-165) is modelled separately by `uploadAll`. -/
def matcherMain (a : MatcherArgs) (videosJsonIsFile thumbnailsFolderIsDir : Bool)
    (videos : List Video) (listing : List String) : Except String (List Video) :=
  match parseMatcherArgs a with
  | Except.error e => Except.error e
  | Except.ok a =>
    if !videosJsonIsFile then Except.error "Videos JSON file not found"
    else if !thumbnailsFolderIsDir then Except.error "Thumbnails folder not found"
    else
      Except.ok
        (match_thumbnails_to_videos (applyFilters a.min_part a.part_range videos)
          (a.thumbnails_folder.getD "") listing).1

/-- C8 counterexample: the claim says that without `--update` the
`--client-secrets` flag may be omitted and the run still performs matching
and writes the updated JSON.  On the code the flag is declared
`required=True` unconditionally, so argparse aborts the run before any
matching even though `--update` is absent. -/
theorem c8_counterexample :
    matcherMain ⟨none, some "videos.json", some "thumbs", none, none, false⟩
        true true [] [] =
      Except.error "the following arguments are required: --client-secrets" := rfl

/-- C8 amended: `--client-secrets` is required unconditionally: every
invocation omitting it aborts with the argparse error, `--update` given or
not; when it and the other required inputs are supplied, a run without
`--update` does perform matching and produces the records written to the
updated JSON file. -/
theorem c8_client_secrets_always_required (cs vj tf : String) (mp : Option Int)
    (pr : Option (Int × Int)) (videos : List Video) (listing : List String) :
    (∀ (vjv tfv : Option String) (mp2 : Option Int) (pr2 : Option (Int × Int))
        (upd e1 e2 : Bool) (vs2 : List Video) (ls2 : List String),
      matcherMain ⟨none, vjv, tfv, mp2, pr2, upd⟩ e1 e2 vs2 ls2 =
        Except.error "the following arguments are required: --client-secrets")
  ∧ matcherMain ⟨some cs, some vj, some tf, mp, pr, false⟩ true true videos listing =
      Except.ok (match_thumbnails_to_videos (applyFilters mp pr videos) tf listing).1 := by
  exact ⟨fun _ _ _ _ _ _ _ _ _ => rfl, rfl⟩

/-- C9 counterexample: `--min-part 2` and `--part-range 10-20` given together.
The claim says the mutually-exclusive-flags configuration error is reported
and the process exits non-zero before any work; the code accepts both flags,
silently applies `--min-part` (part 5 ≥ 2 is kept, while the range filter
would have dropped it) and proceeds all the way to matching and the JSON
write. -/
theorem c9_counterexample :
    matcherMain ⟨some "cs.json", some "videos.json", some "thumbs", some 2, some (10, 20), false⟩
        true true [⟨"a", "Ep Part 5", none⟩] [] =
      Except.ok [⟨"a", "Ep Part 5", none⟩] := by
  rfl

/-- C9 amended: supplying both `--min-part` and `--part-range` is not
rejected: argparse accepts both and the run proceeds; `main` applies the
min-part filter when its value is nonzero and silently ignores the part
range, and with `--min-part 0` (falsy) the part-range filter applies
instead. -/
theorem c9_both_filters_accepted (cs vj tf : String) (m : Int) (pr : Int × Int)
    (upd : Bool) (videos : List Video) (listing : List String) :
    matcherMain ⟨some cs, some vj, some tf, some m, some pr, upd⟩ true true videos listing =
      Except.ok
        (match_thumbnails_to_videos
          (if m = 0 then filter_videos_by_part_range videos pr
           else filter_videos_by_min_part videos m) tf listing).1 := by
  by_cases hm : m = 0 <;>
    simp [matcherMain, parseMatcherArgs, applyFilters, hm]

end UV

namespace GV

/-- get_youtube_video_ids.py lines 22-25, the `VideoInfo` dataclass. -/
structure VideoInfo where
  video_id : String
  title : String
deriving DecidableEq

/-- A playlist item as delivered by the paged API: (videoId, visible title),
i.e. `item["contentDetails"]["videoId"]` and `item["snippet"]["title"]`. -/
abbrev Item : Type := String × String

/-- Loop body of get_youtube_video_ids.py lines 55-61: an item whose visible
title is the sentinel "Private Video" is recorded with a blank placeholder
title and its id is appended to `private_ids`. -/
def pageItemStep (acc : List VideoInfo × List String) (item : Item) :
    List VideoInfo × List String :=
  if item.2 = "Private Video" then
    (acc.1 ++ [⟨item.1, ""⟩], acc.2 ++ [item.1])
  else
    (acc.1 ++ [⟨item.1, item.2⟩], acc.2)

/-- get_youtube_video_ids.py lines 42-65: the paged enumeration loop, with
the pages of `playlistItems().list` responses abstracted as input; returns
the accumulated records and the deferred private ids. -/
def collectPages (pages : List (List Item)) : List VideoInfo × List String :=
  pages.foldl (fun acc page => page.foldl pageItemStep acc) ([], [])

/-- get_youtube_video_ids.py line 68-69: `range(0, len(private_ids), 50)`
slices `private_ids[i:i+50]`; fuel recursion (every step consumes at least
one element, so `l.length` fuel suffices). -/
def chunksGo : Nat → List String → List (List String)
  | 0, _ => []
  | _, [] => []
  | fuel + 1, x :: xs => (x :: xs).take 50 :: chunksGo fuel ((x :: xs).drop 50)

/-- The ≤50-element batches of the deferred-id list, in order. -/
def chunks50 (l : List String) : List (List String) :=
  chunksGo l.length l

/-- get_youtube_video_ids.py line 77-79: find the FIRST record whose id
matches (`next((v for v in videos if v.video_id == item["id"]), None)`) and
overwrite its title in place; no record matching is a silent no-op. -/
def patchFirst (videos : List VideoInfo) (vid title : String) : List VideoInfo :=
  match videos with
  | [] => []
  | v :: rest =>
    if v.video_id = vid then ⟨v.video_id, title⟩ :: rest
    else v :: patchFirst rest vid title

/-- get_youtube_video_ids.py lines 67-79: for each ≤50-id chunk one
`videos().list` call (the oracle `lookup`) returns (id, title) items, each of
which patches the first record carrying its id. -/
def resolvePrivate (lookup : List String → List Item) (videos : List VideoInfo)
    (private_ids : List String) : List VideoInfo :=
  (chunks50 private_ids).foldl
    (fun vs chunk => (lookup chunk).foldl (fun vs item => patchFirst vs item.1 item.2) vs)
    videos

/-- get_youtube_video_ids.py lines 37-81, `get_video_ids_from_playlist`, with
the playlist pages and the batched title lookup abstracted as inputs. -/
def get_video_ids_from_playlist (pages : List (List Item))
    (lookup : List String → List Item) : List VideoInfo :=
  resolvePrivate lookup (collectPages pages).1 (collectPages pages).2

/-- The record built for one playlist item during enumeration. -/
def itemRecord (item : Item) : VideoInfo :=
  if item.2 = "Private Video" then ⟨item.1, ""⟩ else ⟨item.1, item.2⟩

/-- The deferred id contributed by one playlist item (private items only). -/
def privId (item : Item) : Option String :=
  if item.2 = "Private Video" then some item.1 else none

end GV

namespace GV

/-- Patching a single record: the per-record effect of one lookup item on a
record list whose ids are distinct. -/
def patchOne (vid title : String) (v : VideoInfo) : VideoInfo :=
  if v.video_id = vid then ⟨v.video_id, title⟩ else v

theorem itemRecord_id (item : Item) : (itemRecord item).video_id = item.1 := by
  unfold itemRecord
  split <;> rfl

theorem patchOne_id (vid t : String) (v : VideoInfo) :
    (patchOne vid t v).video_id = v.video_id := by
  unfold patchOne
  split <;> rfl

/-- Unfolding of the per-page item fold. -/
theorem pageItemStep_foldl :
    ∀ (items : List Item) (acc : List VideoInfo × List String),
      items.foldl pageItemStep acc =
        (acc.1 ++ items.map itemRecord, acc.2 ++ items.filterMap privId) := by
  intro items
  induction items with
  | nil => intro acc; simp
  | cons it items ih =>
    intro acc
    rw [List.foldl_cons, ih]
    by_cases h : it.2 = "Private Video" <;>
      simp [pageItemStep, itemRecord, privId, h]

/-- Closed form of the enumeration pass: one record per item over all pages
in order, and the deferred ids are the ids of the private items in order. -/
theorem collectPages_spec (pages : List (List Item)) :
    collectPages pages =
      (pages.flatten.map itemRecord, pages.flatten.filterMap privId) := by
  have aux : ∀ (ps : List (List Item)) (acc : List VideoInfo × List String),
      ps.foldl (fun acc page => page.foldl pageItemStep acc) acc =
        (acc.1 ++ ps.flatten.map itemRecord, acc.2 ++ ps.flatten.filterMap privId) := by
    intro ps
    induction ps with
    | nil => intro acc; simp
    | cons pg pgs ih =>
      intro acc
      rw [List.foldl_cons, pageItemStep_foldl, ih]
      simp
  rw [collectPages, aux]
  simp

/-- Every batch produced by the chunking loop holds at most 50 ids. -/
theorem chunksGo_le50 :
    ∀ (fuel : Nat) (l : List String), ∀ c ∈ chunksGo fuel l, c.length ≤ 50 := by
  intro fuel
  induction fuel with
  | zero => intro l c hc; simp [chunksGo] at hc
  | succ n ih =>
    intro l c hc
    cases l with
    | nil => simp [chunksGo] at hc
    | cons x xs =>
      rw [chunksGo] at hc
      rcases List.mem_cons.mp hc with rfl | hc2
      · simp
      · exact ih _ c hc2

/-- The batches concatenate back to the whole deferred-id list: every
deferred id is looked up. -/
theorem chunksGo_flatten :
    ∀ (fuel : Nat) (l : List String), l.length ≤ fuel → (chunksGo fuel l).flatten = l := by
  intro fuel
  induction fuel with
  | zero =>
    intro l h
    cases l with
    | nil => rfl
    | cons x xs => simp at h
  | succ n ih =>
    intro l h
    cases l with
    | nil => rfl
    | cons x xs =>
      rw [chunksGo, List.flatten_cons, ih ((x :: xs).drop 50) (by simp at h ⊢; omega)]
      exact List.take_append_drop 50 (x :: xs)

theorem chunks50_le50 (l : List String) : ∀ c ∈ chunks50 l, c.length ≤ 50 :=
  chunksGo_le50 l.length l

theorem chunks50_flatten (l : List String) : (chunks50 l).flatten = l :=
  chunksGo_flatten l.length l (Nat.le_refl _)

/-- Folding the patches chunk by chunk is folding them over the concatenated
lookup results. -/
theorem foldl_lookup_chunks (g : String → Option Item) :
    ∀ (chunks : List (List String)) (vs : List VideoInfo),
      chunks.foldl
        (fun vs c => (c.filterMap g).foldl (fun vs item => patchFirst vs item.1 item.2) vs)
        vs =
      (chunks.flatten.filterMap g).foldl (fun vs item => patchFirst vs item.1 item.2) vs := by
  intro chunks
  induction chunks with
  | nil => intro vs; rfl
  | cons c cs ih =>
    intro vs
    rw [List.foldl_cons, ih, List.flatten_cons, List.filterMap_append, List.foldl_append]

/-- Patching never changes the id sequence of the record list. -/
theorem patchFirst_map_id (vid t : String) :
    ∀ vs : List VideoInfo,
      (patchFirst vs vid t).map VideoInfo.video_id = vs.map VideoInfo.video_id := by
  intro vs
  induction vs with
  | nil => rfl
  | cons v rest ih =>
    rw [patchFirst]
    split
    · rfl
    · simpa using ih

/-- On a record list with pairwise-distinct ids, patching the first matching
record is patching every record (at most one matches). -/
theorem patchFirst_eq_map_patchOne (vid t : String) :
    ∀ vs : List VideoInfo, (vs.map VideoInfo.video_id).Nodup →
      patchFirst vs vid t = vs.map (patchOne vid t) := by
  intro vs
  induction vs with
  | nil => intro _; rfl
  | cons v rest ih =>
    intro hnd
    rw [List.map_cons, List.nodup_cons] at hnd
    rw [patchFirst, List.map_cons]
    by_cases h : v.video_id = vid
    · rw [if_pos h]
      have hrest : rest.map (patchOne vid t) = rest := by
        apply (List.map_congr_left ?_).trans (List.map_id rest)
        intro u hu
        have : u.video_id ≠ vid := by
          intro he
          have hm : u.video_id ∈ rest.map VideoInfo.video_id :=
            List.mem_map_of_mem VideoInfo.video_id hu
          exact hnd.1 ((he.trans h.symm) ▸ hm)
        simp [patchOne, this]
      rw [hrest, patchOne, if_pos h]
    · rw [if_neg h, patchOne, if_neg h, ih hnd.2]

end GV

namespace GV

/-- With pairwise-distinct record ids, the fold of first-match patches over a
record list acts independently on each record. -/
theorem foldl_patch_eq_map :
    ∀ (ops : List Item) (vs : List VideoInfo),
      (vs.map VideoInfo.video_id).Nodup →
      ops.foldl (fun vs item => patchFirst vs item.1 item.2) vs =
        vs.map (fun v => ops.foldl (fun u item => patchOne item.1 item.2 u) v) := by
  intro ops
  induction ops with
  | nil =>
    intro vs _
    simp
  | cons op ops ih =>
    intro vs hnd
    have hids : (vs.map (patchOne op.1 op.2)).map VideoInfo.video_id =
        vs.map VideoInfo.video_id := by
      rw [List.map_map]
      exact List.map_congr_left (fun u _ => patchOne_id op.1 op.2 u)
    rw [List.foldl_cons, patchFirst_eq_map_patchOne op.1 op.2 vs hnd,
      ih _ (by rw [hids]; exact hnd), List.map_map]
    rfl

/-- Records whose id never occurs among the patch items are unchanged. -/
theorem foldl_patchOne_of_not_mem :
    ∀ (ops : List Item) (v : VideoInfo),
      (∀ item ∈ ops, item.1 ≠ v.video_id) →
      ops.foldl (fun u item => patchOne item.1 item.2 u) v = v := by
  intro ops
  induction ops with
  | nil => intro v _; rfl
  | cons op ops ih =>
    intro v h
    rw [List.foldl_cons, patchOne,
      if_neg (fun he => h op (List.mem_cons_self op ops) he.symm)]
    exact ih v (fun item hi => h item (List.mem_cons_of_mem op hi))

/-- With pairwise-distinct patch-item ids, the fold of per-record patches is
determined by the first (equivalently only) item carrying the record's id. -/
theorem foldl_patchOne_find :
    ∀ (ops : List Item) (v : VideoInfo),
      (ops.map Prod.fst).Nodup →
      ops.foldl (fun u item => patchOne item.1 item.2 u) v =
        (match ops.find? (fun item => item.1 == v.video_id) with
         | some item => ⟨v.video_id, item.2⟩
         | none => v) := by
  intro ops
  induction ops with
  | nil => intro v _; rfl
  | cons op ops ih =>
    intro v hnd
    rw [List.map_cons, List.nodup_cons] at hnd
    by_cases h : op.1 = v.video_id
    · rw [List.foldl_cons, patchOne, if_pos h.symm,
        List.find?_cons_of_pos _ (by simp [h])]
      apply foldl_patchOne_of_not_mem ops ⟨v.video_id, op.2⟩
      intro item hi he
      apply hnd.1
      have hm : item.1 ∈ ops.map Prod.fst := List.mem_map_of_mem Prod.fst hi
      have he2 : item.1 = op.1 := by simpa [h] using he
      exact he2 ▸ hm
    · rw [List.foldl_cons, patchOne, if_neg (fun he => h (he.symm)),
        List.find?_cons_of_neg _ (by simp [h]), ih v hnd.2]

/-- A response-shaped lookup result holds no item for an id outside its
chunk. -/
theorem find?_filterMap_resp_not_mem (resp : String → Option String) :
    ∀ (pids : List String) (i : String), i ∉ pids →
      ((pids.filterMap (fun j => (resp j).map (fun t => (j, t)))).find?
        (fun item => item.1 == i)) = none := by
  intro pids
  induction pids with
  | nil => intro i _; rfl
  | cons p ps ih =>
    intro i hi
    have hne : p ≠ i := fun he => hi (he ▸ List.mem_cons_self p ps)
    have hips : i ∉ ps := fun hm => hi (List.mem_cons_of_mem p hm)
    cases hr : resp p with
    | none => simpa [List.filterMap_cons, hr] using ih i hips
    | some t =>
      rw [List.filterMap_cons, hr, Option.map_some',
        List.find?_cons_of_neg _ (by simp [hne])]
      exact ih i hips

/-- A response-shaped lookup result finds exactly the response for an id of
its (duplicate-free) chunk. -/
theorem find?_filterMap_resp_mem (resp : String → Option String) :
    ∀ (pids : List String) (i : String), pids.Nodup → i ∈ pids →
      ((pids.filterMap (fun j => (resp j).map (fun t => (j, t)))).find?
        (fun item => item.1 == i)) = (resp i).map (fun t => (i, t)) := by
  intro pids
  induction pids with
  | nil => intro i _ hi; simp at hi
  | cons p ps ih =>
    intro i hnd hi
    rw [List.nodup_cons] at hnd
    rcases List.mem_cons.mp hi with rfl | hips
    · cases hr : resp i with
      | none =>
        rw [List.filterMap_cons, hr, Option.map_none',
          find?_filterMap_resp_not_mem resp ps i hnd.1]
      | some t =>
        rw [List.filterMap_cons, hr, Option.map_some',
          List.find?_cons_of_pos _ (by simp)]
    · have hne : p ≠ i := fun he => hnd.1 (he ▸ hips)
      cases hr : resp p with
      | none =>
        simpa [List.filterMap_cons, hr] using ih i hnd.2 hips
      | some t =>
        rw [List.filterMap_cons, hr, Option.map_some',
          List.find?_cons_of_neg _ (by simp [hne])]
        exact ih i hnd.2 hips

/-- The deferred ids are the ids of the private items, in order. -/
theorem privIds_eq_filter :
    ∀ items : List Item,
      items.filterMap privId =
        (items.filter (fun it => it.2 == "Private Video")).map Prod.fst := by
  intro items
  induction items with
  | nil => rfl
  | cons it items ih =>
    by_cases h : it.2 = "Private Video" <;>
      simp [privId, h, List.filterMap_cons, ih]

/-- The ids of a response-shaped lookup result are the queried ids that got a
response. -/
theorem filterMap_resp_map_fst (resp : String → Option String) :
    ∀ pids : List String,
      (pids.filterMap (fun j => (resp j).map (fun t => (j, t)))).map Prod.fst =
        pids.filter (fun j => (resp j).isSome) := by
  intro pids
  induction pids with
  | nil => rfl
  | cons p ps ih =>
    rw [List.filterMap_cons]
    cases hr : resp p with
    | none => simpa [List.filter_cons, hr] using ih
    | some t => simpa [List.filter_cons, hr] using ih

end GV

namespace GV

/-- C6 counterexample: a playlist in which the same video id X appears twice,
both times as "Private Video".  The claim says the batched lookup patches
each matching record, so every record for X should end with the looked-up
title; the code patches only the FIRST record with a matching id
(`next((v for v in videos if ...), None)`), so the second record for X keeps
the blank placeholder title instead of the lookup title. -/
theorem c6_duplicate_id_counterexample :
    get_video_ids_from_playlist [[("X", "Private Video"), ("X", "Private Video")]]
        (fun _ => [("X", "Real Title")]) =
      [⟨"X", "Real Title"⟩, ⟨"X", ""⟩]
  ∧ ¬ (∀ v ∈ get_video_ids_from_playlist [[("X", "Private Video"), ("X", "Private Video")]]
        (fun _ => [("X", "Real Title")]), v.video_id = "X" → v.title = "Real Title") := by
  constructor
  · rfl
  · decide

/-- C6 amended: an item titled "Private Video" is recorded with a blank title
and its id deferred; after enumeration the deferred ids are resolved in
batches of at most 50 ids covering every deferred id, and each lookup item
patches the FIRST record with a matching id.  Provided the playlist ids are
pairwise distinct (so each id identifies one record) and the lookup answers
each queried id j with the response `resp j` when present, the final record
of a private item carries exactly the looked-up title (blank when the lookup
returns no item for that id), and every other record keeps its visible
title. -/
theorem c6_private_title_resolution (pages : List (List Item))
    (resp : String → Option String) (lookup : List String → List Item)
    (hlk : ∀ c, lookup c = c.filterMap (fun j => (resp j).map (fun t => (j, t))))
    (hnd : (pages.flatten.map Prod.fst).Nodup) :
    (∀ c ∈ chunks50 (collectPages pages).2, c.length ≤ 50)
  ∧ (chunks50 (collectPages pages).2).flatten = (collectPages pages).2
  ∧ get_video_ids_from_playlist pages lookup =
      pages.flatten.map (fun item =>
        if item.2 = "Private Video" then ⟨item.1, (resp item.1).getD ""⟩
        else ⟨item.1, item.2⟩) := by
  have hpids_nd : (pages.flatten.filterMap privId).Nodup := by
    rw [privIds_eq_filter]
    exact hnd.sublist ((List.filter_sublist _).map Prod.fst)
  have hops_nd :
      (((pages.flatten.filterMap privId).filterMap
        (fun j => (resp j).map (fun t => (j, t)))).map Prod.fst).Nodup := by
    rw [filterMap_resp_map_fst]
    exact hpids_nd.filter _
  have hvs_nd : ((pages.flatten.map itemRecord).map VideoInfo.video_id).Nodup := by
    rw [List.map_map]
    have he : pages.flatten.map (VideoInfo.video_id ∘ itemRecord) =
        pages.flatten.map Prod.fst :=
      List.map_congr_left (fun it _ => itemRecord_id it)
    rw [he]
    exact hnd
  refine ⟨chunks50_le50 _, chunks50_flatten _, ?_⟩
  unfold get_video_ids_from_playlist resolvePrivate
  rw [collectPages_spec]
  dsimp only
  simp only [hlk]
  rw [foldl_lookup_chunks, chunks50_flatten, foldl_patch_eq_map _ _ hvs_nd, List.map_map]
  apply List.map_congr_left
  intro item hitem
  show ((pages.flatten.filterMap privId).filterMap
      (fun j => (resp j).map (fun t => (j, t)))).foldl
        (fun u it => patchOne it.1 it.2 u) (itemRecord item) = _
  rw [foldl_patchOne_find _ _ hops_nd, itemRecord_id]
  by_cases hp : item.2 = "Private Video"
  · have hmem : item.1 ∈ pages.flatten.filterMap privId :=
      List.mem_filterMap.mpr ⟨item, hitem, by simp [privId, hp]⟩
    rw [find?_filterMap_resp_mem resp _ _ hpids_nd hmem]
    cases hr : resp item.1 with
    | none =>
      rw [Option.map_none']
      simp [itemRecord, hp]
    | some t =>
      rw [Option.map_some']
      simp [hp]
  · have hnmem : item.1 ∉ pages.flatten.filterMap privId := by
      rw [privIds_eq_filter]
      intro hm
      rcases List.mem_map.mp hm with ⟨it2, hit2, heq⟩
      rcases List.mem_filter.mp hit2 with ⟨hit2mem, hpriv2⟩
      have he2 : it2 = item := List.inj_on_of_nodup_map hnd hit2mem hitem heq
      rw [he2] at hpriv2
      simp at hpriv2
      exact hp hpriv2
    rw [find?_filterMap_resp_not_mem resp _ _ hnmem]
    simp [itemRecord, hp]

/-- Witness for C6 at a concrete two-item page: the private id X resolves to
the looked-up title "Real Title", the public id Y keeps its visible title. -/
theorem c6_private_title_resolution_witness :
    (∀ c ∈ chunks50
        (collectPages [[("X", "Private Video"), ("Y", "Title Y")]]).2, c.length ≤ 50)
  ∧ (chunks50 (collectPages [[("X", "Private Video"), ("Y", "Title Y")]]).2).flatten =
      (collectPages [[("X", "Private Video"), ("Y", "Title Y")]]).2
  ∧ get_video_ids_from_playlist [[("X", "Private Video"), ("Y", "Title Y")]]
      (fun c => c.filterMap
        (fun j => ((fun i => if i = "X" then some "Real Title" else none) j).map
          (fun t => (j, t)))) =
      [[("X", "Private Video"), ("Y", "Title Y")]].flatten.map (fun item =>
        if item.2 = "Private Video" then
          ⟨item.1, ((fun i => if i = "X" then some "Real Title" else none) item.1).getD ""⟩
        else ⟨item.1, item.2⟩) :=
  c6_private_title_resolution [[("X", "Private Video"), ("Y", "Title Y")]]
    (fun i => if i = "X" then some "Real Title" else none) _
    (fun _ => rfl) (by decide)

end GV

namespace GV

/-- get_youtube_video_ids.py lines 91-115: `main` authenticates, then wraps
the playlist retrieval and the JSON write in try/except (lines 105-110); on
any exception the error is logged and swallowed, `main` returns None, and
`exit(main())` becomes `exit(None)`, which is exit status 0.  The embedding
abstracts the retrieval as `fetch` and returns
(exit status, logged error lines, written file as (path, records)). -/
def exporterMain (fetch : Except String (List VideoInfo)) (output : String) :
    Nat × List String × Option (String × List VideoInfo) :=
  match fetch with
  | Except.ok vids => (0, [], some (output, vids))
  | Except.error e => (0, ["Error retrieving video IDs: " ++ e], none)

/-- C7 counterexample: an API error during retrieval.  The claim says the
process exits with a non-zero status; the code catches the exception inside
`main`, logs it, and returns None, so `exit(main())` exits with status 0
(a zero, not non-zero, status). -/
theorem c7_exit_status_counterexample :
    (exporterMain (Except.error "API failure") "video_ids.json").1 = 0
  ∧ exporterMain (Except.error "API failure") "video_ids.json" =
      (0, ["Error retrieving video IDs: API failure"], none) :=
  ⟨rfl, rfl⟩

/-- C7 amended: any API error during playlist retrieval is caught at `main`'s
try/except: exactly one error message is logged, no output JSON file is
written, but the error does not surface past `main` and the process exits
with status 0 rather than a non-zero status. -/
theorem c7_error_logged_no_output (e output : String) :
    exporterMain (Except.error e) output =
      (0, ["Error retrieving video IDs: " ++ e], none) := rfl

end GV
